import Mathlib

/-!
Shallow embedding of the payment status reconciliation core of the
school-payment-microservice backend:

* `normalizeStatus`           — the status normalizer (app.js, `normalizeStatus`)
* `paymentWebhook`            — the webhook ingestor
  (controllers/payment/paymentWebhook.js, `paymentWebhook`)
* `paymentCallback`           — the callback ingestor, including the inline
  status-poll of the gateway status endpoint (app.js, `paymentCallback`)
* `createPayment`             — the payment initiator (app.js, `createPayment`)

JavaScript conventions are modelled explicitly: query/body fields that may be
absent are `Option`s, string truthiness (`undefined`/`""` are falsy) is
`jsTruthy`, `a || b` on strings is `jsOr`/`strOr`, and `s.toLowerCase()` is
`jsToLower` (ASCII case mapping, which covers the entire status vocabulary the
code compares against).  Monetary amounts are modelled as `Int` (the claims
under study never exercise non-integral or NaN arithmetic).  MongoDB documents
are records in an in-memory `Store`; `save()` replaces the record with the
same surrogate `_id`.  Every network interaction (gateway create-collect
request, gateway status poll, webhook signature verification) is an explicit
oracle parameter so that each control-flow branch of the source is represented.
-/

namespace SchoolPay

/-- JS truthiness of a possibly-absent string: `undefined` and `""` are falsy. -/
def jsTruthy : Option String → Bool
  | none => false
  | some s => s ≠ ""

/-- JS `a || b` on possibly-absent strings. -/
def jsOr (a b : Option String) : Option String :=
  if jsTruthy a then a else b

/-- JS `a || b` on present strings (`""` falsy). -/
def strOr (a b : String) : String :=
  if a = "" then b else a

/-- ASCII lower-casing of one character, as JS `toLowerCase` acts on the
basic-latin range (the only range the status comparisons use). -/
def lowerChar (c : Char) : Char :=
  if 65 ≤ c.toNat ∧ c.toNat ≤ 90 then Char.ofNat (c.toNat + 32) else c

/-- Model of `s.toString().toLowerCase()` over the string's characters. -/
def jsToLower (s : String) : String :=
  ⟨s.data.map lowerChar⟩

/-- Model of `s.split('?')[0]`: the prefix of `s` before the first `?`. -/
def stripQuery (s : String) : String :=
  ⟨s.data.takeWhile (fun c => c ≠ '?')⟩

/-- Model of `x ? x.split('?')[0] : ''` applied to a query parameter. -/
def cleanId : Option String → String
  | none => ""
  | some s => if s = "" then "" else stripQuery s

/-- The status normalizer (app.js `normalizeStatus`): `if (!status) return
'pending'`, lower-case, then the three synonym groups, defaulting to
`"pending"`.  The falsy argument (`undefined`/`""`) is modelled by `""`. -/
def normalizeStatus (status : String) : String :=
  if status = "" then "pending"
  else
    let n := jsToLower status
    if n = "success" ∨ n = "successful" ∨ n = "completed" ∨ n = "paid" ∨
       n = "captured" ∨ n = "authorized" then "success"
    else if n = "failed" ∨ n = "failure" ∨ n = "declined" ∨ n = "rejected" ∨
       n = "error" then "failed"
    else if n = "cancelled" ∨ n = "canceled" ∨ n = "abandoned" ∨
       n = "aborted" then "cancelled"
    else "pending"

/-- The synonym tokens the normalizer recognizes (already lower-cased). -/
def recognizedTokens : List String :=
  ["success", "successful", "completed", "paid", "captured", "authorized",
   "failed", "failure", "declined", "rejected", "error",
   "cancelled", "canceled", "abandoned", "aborted"]

theorem toNat_ofNat_valid (n : Nat) (h : n.isValidChar) :
    (Char.ofNat n).toNat = n := by
  simp [Char.ofNat, dif_pos h, Char.ofNatAux, Char.toNat, UInt32.toNat,
    BitVec.toNat_ofNatLt]

theorem lowerChar_idem (c : Char) : lowerChar (lowerChar c) = lowerChar c := by
  unfold lowerChar
  by_cases h : 65 ≤ c.toNat ∧ c.toNat ≤ 90
  · rw [if_pos h]
    have hv : (c.toNat + 32).isValidChar := Or.inl (by omega)
    rw [if_neg]
    rw [toNat_ofNat_valid _ hv]
    omega
  · rw [if_neg h, if_neg h]

theorem jsToLower_idem (s : String) : jsToLower (jsToLower s) = jsToLower s := by
  unfold jsToLower
  simp [List.map_map, Function.comp_def, lowerChar_idem]

theorem jsToLower_eq_empty (s : String) : jsToLower s = "" ↔ s = "" := by
  unfold jsToLower
  constructor
  · intro h
    have : s.data.map lowerChar = [] := congrArg String.data h
    rcases s with ⟨d⟩
    cases d with
    | nil => rfl
    | cons a l => simp at this
  · intro h; subst h; rfl

/-! ## Data model (models/Order.js, models/OrderStatus.js, in-memory store) -/

/-- An `Order` document (the payment intent).  `id` models the Mongo `_id`. -/
structure OrderRec where
  id : String
  school_id : String
  trustee_id : String
  student_name : String
  student_id : String
  student_email : String
  gateway_name : String
  amount : Int
  currency : String
  status : String
  created_at : Nat
  deriving Repr, DecidableEq

/-- An `OrderStatus` document.  `_id` is the Mongo surrogate key that
`document.save()` updates by; `order_id` models the `ObjectId` reference to
the owning `Order`. -/
structure OrderStatusRec where
  _id : Nat
  collect_id : String
  order_id : String
  order_amount : Int
  transaction_amount : Option Int
  payment_mode : Option String
  payment_details : Option String
  bank_reference : Option String
  payment_message : Option String
  status : String
  error_message : String
  payment_time : Option Nat
  updated_at : Nat
  deriving Repr, DecidableEq

/-- The durable store: the `orders` and `order_statuses` collections. -/
structure Store where
  orders : List OrderRec
  orderStatuses : List OrderStatusRec
  deriving Repr, DecidableEq

/-- `OrderStatus.findOne({ collect_id })` — first record with that collect id. -/
def findByCollect (st : Store) (c : String) : Option OrderStatusRec :=
  st.orderStatuses.find? (fun r => r.collect_id = c)

/-- `OrderStatus.findOne({ order_id })` — first record owned by that order. -/
def findByOrder (st : Store) (o : String) : Option OrderStatusRec :=
  st.orderStatuses.find? (fun r => r.order_id = o)

/-- `OrderStatus.findOne({ collect_id: x })` when `x` may be `undefined`:
a query on an absent key matches nothing (the field is required). -/
def findByCollectOpt (st : Store) : Option String → Option OrderStatusRec
  | none => none
  | some c => findByCollect st c

/-- `Order.findById(id)`. -/
def findOrderById (st : Store) (i : String) : Option OrderRec :=
  st.orders.find? (fun o => o.id = i)

/-- `orderStatus.save()`: persist the (mutated) document, replacing the stored
record with the same `_id`. -/
def saveOrderStatus (st : Store) (r : OrderStatusRec) : Store :=
  { st with orderStatuses := st.orderStatuses.map (fun x => if x._id = r._id then r else x) }

/-- `order.save()`: persist the (mutated) order document. -/
def saveOrder (st : Store) (o : OrderRec) : Store :=
  { st with orders := st.orders.map (fun x => if x.id = o.id then o else x) }

/-! ## Webhook ingestor (controllers/payment/paymentWebhook.js) -/

/-- The `order_info` object of a webhook payload; every field may be absent. -/
structure OrderInfo where
  order_id : Option String
  order_amount : Option Int
  transaction_amount : Option Int
  gateway : Option String
  bank_reference : Option String
  status : Option String
  payment_mode : Option String
  payment_details : Option String
  payment_message : Option String
  error_message : Option String
  deriving Repr, DecidableEq

/-- A webhook request body `{ order_info, sign }`. -/
structure WebhookReq where
  order_info : Option OrderInfo
  sign : Option String
  deriving Repr, DecidableEq

/-- The responses the webhook handler can produce. -/
inductive WebhookResp where
  /-- 400 `Invalid webhook payload` (missing `order_info` or `sign`). -/
  | badRequest
  /-- 403 `Unauthorized webhook` (JWT verification failed). -/
  | unauthorized
  /-- 404 `Order not found`. -/
  | notFound
  /-- 200 `Webhook processed successfully` with the order id. -/
  | ok (order_id : String)
  /-- 500 `Internal server error during webhook processing`. -/
  | serverError
  deriving Repr, DecidableEq

/-- The webhook handler `paymentWebhook`.  `verify` is the JWT verifier
against the pre-shared `PG_KEY` (`jwt.verify(sign, PG_KEY)` succeeds iff
`verify sign = true`).

Faithful to the source: after the signature check and the `collect_id`
lookup succeed, the update block at lines 82–93 of `paymentWebhook.js`
evaluates `status.toLowerCase()` (a `TypeError` when `order_info.status` is
absent) and then the identifier `payment_time` on line 86 — which is **never
declared anywhere in the module** (it is not among the fields destructured
from `order_info`), so execution always raises a `ReferenceError` there
(line 92's `amount` is likewise undeclared).  The surrounding `try` returns
the 500 response, and since the throw happens before `order.save()` and
`orderStatus.save()`, the store is never written on any path. -/
def paymentWebhook (verify : String → Bool) (st : Store) (req : WebhookReq) :
    WebhookResp × Store :=
  match req.order_info, req.sign with
  | none, _ => (.badRequest, st)
  | some _, none => (.badRequest, st)
  | some oi, some sign =>
    if sign = "" then (.badRequest, st)
    else if verify sign = false then (.unauthorized, st)
    else
      match findByCollectOpt st oi.order_id with
      | none => (.notFound, st)
      | some _ =>
        match oi.status with
        | none => (.serverError, st)
        | some _ => (.serverError, st)

/-! ## Callback ingestor (app.js `paymentCallback`) -/

/-- JS truthiness of a possibly-absent number (`0` is falsy). -/
def jsTruthyInt : Option Int → Bool
  | none => false
  | some n => n ≠ 0

/-- The callback query string `{ orderId, EdvironCollectRequestId, status }`. -/
structure CbQuery where
  orderId : Option String
  edvironCollectRequestId : Option String
  status : Option String
  deriving Repr, DecidableEq

/-- Outcome of the `axios.get` poll of the gateway's status endpoint:
either a 2xx response whose body may carry `status` and `amount`, or a
thrown error (network failure, timeout, non-2xx). -/
inductive PollOutcome where
  | ok (status : Option String) (amount : Option Int)
  | err
  deriving Repr, DecidableEq

/-- Callback-handler environment: the `SCHOOL_ID` configuration, whether
`document.save()` succeeds (`saveOk = false` models a storage error thrown
by the first save attempted, caught by the enclosing `try`), the poll
oracle, and the clock. -/
structure CbEnv where
  schoolId : Option String
  saveOk : Bool
  poll : PollOutcome
  now : Nat
  deriving Repr, DecidableEq

/-- The callback handler's response: 400 `Missing collect request ID`, or the
redirect to `FRONTEND_URL/redirect.html` carrying `orderId`, `status` and
`EdvironCollectRequestId` query parameters. -/
inductive CbResult where
  | badRequest
  | redirect (orderId status collectId : String)
  deriving Repr, DecidableEq

/-- Result of the callback handler: the response, the resulting store, and
whether the gateway status endpoint was actually queried. -/
structure CbOut where
  resp : CbResult
  store : Store
  polled : Bool
  deriving Repr, DecidableEq

/-- Field updates of the direct-status-update block (app.js lines 151–169):
normalized status, `updated_at`, and the per-status message fields. -/
def applyCallbackInline (r : OrderStatusRec) (n : String) (now : Nat) :
    OrderStatusRec :=
  let r1 := { r with status := n, updated_at := now }
  if n = "success" then
    { r1 with payment_message := some "Payment completed successfully",
              payment_time := some now }
  else if n = "failed" then
    { r1 with error_message := "Payment failed",
              payment_message := some "Payment transaction failed" }
  else if n = "cancelled" then
    { r1 with error_message := "Payment cancelled by user",
              payment_message := some "Payment transaction cancelled" }
  else r1

/-- `if (orderStatus.order_id) { const order = await Order.findById(...); if
(order) { order.status = n; await order.save(); } }` -/
def propagateOrder (st : Store) (oid : String) (n : String) : Store :=
  if oid = "" then st
  else
    match findOrderById st oid with
    | some o => saveOrder st { o with status := n }
    | none => st

/-- The direct-status-update step (app.js lines 140–190).  Returns `some`
(response, new store) when the handler returned from inside this block, and
`none` when control fell through to the poll step (inline status or order id
missing, no matching record, or `save()` threw — the catch at line 187 only
logs). -/
def callbackInlineStep (env : CbEnv) (st : Store) (qstatus : Option String)
    (co cc : String) : Option (CbResult × Store) :=
  if jsTruthy qstatus ∧ co ≠ "" then
    match (findByCollect st cc).orElse (fun _ => findByOrder st co) with
    | some r =>
      if env.saveOk then
        let n := normalizeStatus (qstatus.getD "")
        let r2 := applyCallbackInline r n env.now
        let st2 := propagateOrder (saveOrderStatus st r2) r2.order_id n
        some (.redirect co (qstatus.getD "") cc, st2)
      else none
    | none => none
  else none

/-- The fallback inside the poll step's catch (app.js lines 296–320): when
the poll failed and the callback carried a status and an order id, write the
normalized callback status with an `API verification failed` note; its own
errors are swallowed. -/
def callbackFallback (env : CbEnv) (st : Store) (qstatus : Option String)
    (co cc : String) : Store :=
  if jsTruthy qstatus ∧ co ≠ "" then
    match (findByCollect st cc).orElse (fun _ => findByOrder st co) with
    | some r =>
      if env.saveOk then
        saveOrderStatus st
          { r with status := normalizeStatus (qstatus.getD ""),
                   updated_at := env.now,
                   error_message := "API verification failed, using callback status" }
      else st
    | none => st
  else st

/-- The unconditional final redirect (app.js line 324), carrying the literal
`PENDING` and `cleanOrderId || cleanCollectRequestId`. -/
def pendingRedirect (co cc : String) : CbResult :=
  .redirect (strOr co cc) "PENDING" cc

/-- Field updates of the poll-result block (app.js lines 258–272). -/
def applyPollUpdate (r : OrderStatusRec) (n : String) (amount : Option Int)
    (now : Nat) : OrderStatusRec :=
  let r1 := { r with status := n, updated_at := now }
  let r2 := if jsTruthyInt amount then { r1 with transaction_amount := amount }
            else r1
  if n = "success" then
    { r2 with payment_message := some "Payment verified successfully",
              payment_time := some now }
  else if n = "failed" then
    { r2 with error_message := "Payment verification failed" }
  else r2

/-- The status-poll step (app.js lines 201–324): check `SCHOOL_ID` (throwing
before the HTTP call when missing), query the gateway, apply a truthy
returned status to the record found by collect id (falling back to order id),
and redirect with the raw returned status; any thrown error lands in the
catch at line 291, which runs the fallback and ends at the final `PENDING`
redirect. -/
def callbackPollStep (env : CbEnv) (st : Store) (qstatus : Option String)
    (co cc : String) : CbOut :=
  if jsTruthy env.schoolId = false then
    { resp := pendingRedirect co cc,
      store := callbackFallback env st qstatus co cc, polled := false }
  else
    match env.poll with
    | .err =>
      { resp := pendingRedirect co cc,
        store := callbackFallback env st qstatus co cc, polled := true }
    | .ok ds amt =>
      if jsTruthy ds = false then
        { resp := pendingRedirect co cc, store := st, polled := true }
      else
        let s := ds.getD ""
        let n := normalizeStatus s
        let r? := match findByCollect st cc with
                  | some r => some r
                  | none => if co ≠ "" then findByOrder st co else none
        match r? with
        | none =>
          { resp := .redirect (strOr co cc) s cc, store := st, polled := true }
        | some r =>
          if env.saveOk then
            let r2 := applyPollUpdate r n amt env.now
            let st2 := propagateOrder (saveOrderStatus st r2) r2.order_id n
            { resp := .redirect (strOr co cc) s cc, store := st2, polled := true }
          else
            { resp := pendingRedirect co cc,
              store := callbackFallback env st qstatus co cc, polled := true }

/-- The callback handler `paymentCallback` (app.js lines 110–329): clean the
ids, 400 when no collect id survives, run the direct-status-update step, and
otherwise the poll step. -/
def paymentCallback (env : CbEnv) (st : Store) (q : CbQuery) : CbOut :=
  let collectRequestId := jsOr q.edvironCollectRequestId q.orderId
  let co := cleanId q.orderId
  let cc := cleanId collectRequestId
  if cc = "" then { resp := .badRequest, store := st, polled := false }
  else
    match callbackInlineStep env st q.status co cc with
    | some (r, st2) => { resp := r, store := st2, polled := false }
    | none => callbackPollStep env st q.status co cc

/-! ## Payment initiator (app.js `createPayment`) -/

/-- The `student_info` object of a create-payment request body. -/
structure StudentInfo where
  name : Option String
  id : Option String
  email : Option String
  deriving Repr, DecidableEq

/-- A create-payment request body.  The amount is an `Int` model of the JS
number (`none` models an absent or non-numeric value, whose `parseFloat` is
`NaN`). -/
structure CreatePaymentReq where
  amount : Option Int
  student_info : Option StudentInfo
  phone_number : Option String
  deriving Repr, DecidableEq

/-- Body of a 2xx response of the gateway's `create-collect-request`
endpoint; all the field aliases the source probes are present. -/
structure GatewayData where
  collect_request_id : Option String
  id : Option String
  collect_request_url : Option String
  capitalCollectRequestUrl : Option String
  payment_url : Option String
  redirect_url : Option String
  deriving Repr, DecidableEq

/-- Outcome of the `axios.post` to `create-collect-request`: a 2xx response,
an error response with a status code, or a timeout / transport error
(`ECONNABORTED` or no response object). -/
inductive GatewayResult where
  | ok (d : GatewayData)
  | errStatus (code : Nat)
  | netErr
  deriving Repr, DecidableEq

/-- Environment of `createPayment`: configuration validity, `SCHOOL_ID`, the
authenticated user (if any), the generated uuid / reference id / Mongo ids /
clock, and the gateway oracle. -/
structure CpEnv where
  envValid : Bool
  schoolId : String
  user : Option String
  uuid : String
  referenceId : String
  newOrderId : String
  newOsId : Nat
  now : Nat
  gateway : GatewayResult
  deriving Repr, DecidableEq

/-- The responses of `createPayment`: an error object with an HTTP code, or
the success JSON `(redirect_url, collect_request_id, order_id,
status:"success")`. -/
inductive CpResp where
  | err (code : Nat) (error : String)
  | ok (redirect_url collect_request_id order_id : String)
  deriving Repr, DecidableEq

/-- `student_info.name.replace(/\s+/g, '')`: drop whitespace characters. -/
def removeWhitespace (s : String) : String :=
  ⟨s.data.filter (fun c => !c.isWhitespace)⟩

/-- The generated default email
`` `${student_info.name.replace(/\s+/g, '').toLowerCase()}@example.com` ``. -/
def defaultEmail (name : String) : String :=
  jsToLower (removeWhitespace name) ++ "@example.com"

/-- The `Order` document built and saved by `createPayment` (lines 482–493):
validated student info with generated defaults, gateway `Edviron`, currency
`INR`, status `pending`. -/
def mkOrder (env : CpEnv) (si : StudentInfo) (a : Int) : OrderRec :=
  { id := env.newOrderId,
    school_id := env.schoolId,
    trustee_id := match env.user with | some u => u | none => env.uuid,
    student_name := si.name.getD "",
    student_id := (jsOr si.id (some ("temp-" ++ env.uuid))).getD "",
    student_email := (jsOr si.email (some (defaultEmail (si.name.getD "")))).getD "",
    gateway_name := "Edviron",
    amount := a,
    currency := "INR",
    status := "pending",
    created_at := env.now }

/-- Rendering of the `JSON.stringify` payment-details payload (reference id,
phone, preferred mode); the exact JSON text is irrelevant to the store's
semantics, only that it is derived from these inputs. -/
def paymentDetailsOf (env : CpEnv) (phone : Option String) : String :=
  "reference_id=" ++ env.referenceId ++ ";phone=" ++ phone.getD "" ++
    ";preferred_mode=" ++ (if jsTruthy phone then "UPI" else "QR")

/-- `paymentUrl`: the alias chain `collect_request_url ||
Collect_request_url || payment_url || redirect_url` (lines 619–622). -/
def paymentUrlOf (d : GatewayData) : Option String :=
  jsOr d.collect_request_url
    (jsOr d.capitalCollectRequestUrl (jsOr d.payment_url d.redirect_url))

/-- `collect_request_id`: `response.data.collect_request_id ||
response.data.id || reference_id` (lines 634–636). -/
def collectIdOf (env : CpEnv) (d : GatewayData) : String :=
  (jsOr d.collect_request_id (jsOr d.id (some env.referenceId))).getD ""

/-- The `OrderStatus` document created by `createPayment` (lines 642–654),
with the schema defaults of unset fields. -/
def mkOrderStatus (env : CpEnv) (a : Int) (cid : String)
    (phone : Option String) : OrderStatusRec :=
  { _id := env.newOsId,
    collect_id := cid,
    order_id := env.newOrderId,
    order_amount := a,
    transaction_amount := none,
    payment_mode := none,
    payment_details := some (paymentDetailsOf env phone),
    bank_reference := none,
    payment_message := none,
    status := "pending",
    error_message := "",
    payment_time := some env.now,
    updated_at := env.now }

/-- The payment initiator `createPayment` (app.js lines 443–692): validate
the configuration and the input, persist the pending `Order`, call the
gateway, map gateway failures to the error taxonomy, extract the payment URL
and collect id through the alias chains, persist the pending `OrderStatus`,
and return the redirect URL. -/
def createPayment (env : CpEnv) (st : Store) (req : CreatePaymentReq) :
    CpResp × Store :=
  if env.envValid = false then (.err 500 "Server configuration error", st)
  else
    match req.amount with
    | none => (.err 400 "Valid positive amount is required", st)
    | some a =>
      if a ≤ 0 then (.err 400 "Valid positive amount is required", st)
      else
        match req.student_info with
        | none => (.err 400 "Student information with at least a name is required", st)
        | some si =>
          if jsTruthy si.name = false then
            (.err 400 "Student information with at least a name is required", st)
          else
            let order := mkOrder env si a
            let st1 := { st with orders := st.orders ++ [order] }
            match env.gateway with
            | .netErr => (.err 504 "Payment gateway timeout", st1)
            | .errStatus c =>
              if c = 401 then (.err 401 "Payment gateway authentication failed", st1)
              else if c = 400 then (.err 400 "Invalid payment request", st1)
              else if c = 404 then (.err 404 "Payment gateway endpoint not found", st1)
              else (.err 500 "Payment gateway error", st1)
            | .ok d =>
              match paymentUrlOf d with
              | none => (.err 500 "Invalid payment gateway response", st1)
              | some url =>
                let cid := collectIdOf env d
                let os := mkOrderStatus env a cid req.phone_number
                let st2 := { st1 with orderStatuses := st1.orderStatuses ++ [os] }
                (.ok url cid env.newOrderId, st2)

/-- The gateway-call failures of `createPayment`: timeout/transport error,
an error-status response, or a 2xx response whose alias chain yields no
payment URL. -/
def gatewayFailed : GatewayResult → Bool
  | .ok d => (paymentUrlOf d).isNone
  | .errStatus _ => true
  | .netErr => true

/-! ## Theorems -/

/-- The webhook handler never writes the store on any path: every successful
prefix of the update block is cut short by the `ReferenceError` on the
undeclared `payment_time` (line 86) before `order.save()` /
`orderStatus.save()` run, and every earlier exit rejects without touching
the store. -/
theorem paymentWebhook_store_eq (verify : String → Bool) (st : Store)
    (req : WebhookReq) : (paymentWebhook verify st req).2 = st := by
  unfold paymentWebhook
  rcases req with ⟨oi, sg⟩
  cases oi <;> cases sg <;> simp only
  · split
    · rfl
    · split
      · rfl
      · split
        · rfl
        · split <;> rfl

/-- C3: a webhook whose signature fails verification against the pre-shared
key is rejected with the 403 `Unauthorized webhook` error, and no
`OrderStatus` or `Order` record is mutated, for every payload content and
every store. -/
theorem webhook_invalid_signature_rejected (verify : String → Bool)
    (st : Store) (oi : OrderInfo) (sg : String) (hsg : sg ≠ "")
    (hv : verify sg = false) :
    paymentWebhook verify st { order_info := some oi, sign := some sg } =
      (.unauthorized, st) := by
  unfold paymentWebhook
  simp [hsg, hv]

/-- Witness for C3 at a concrete store, payload and failing verifier. -/
theorem webhook_invalid_signature_rejected_witness :
    paymentWebhook (fun _ => false)
      { orders := [], orderStatuses := [] }
      { order_info := some
          { order_id := some "abc123", order_amount := some 1000,
            transaction_amount := some 1200, gateway := some "PhonePe",
            bank_reference := some "YESBNK222", status := some "success",
            payment_mode := some "upi", payment_details := some "success@ybl",
            payment_message := some "payment success",
            error_message := some "NA" },
        sign := some "forged" } =
      (.unauthorized, { orders := [], orderStatuses := [] }) :=
  webhook_invalid_signature_rejected (fun _ => false) _ _ "forged"
    (by decide) rfl

/-- C2 (failing input): a correctly-signed webhook carrying status
`"success"` and a transaction amount, aimed at a pending `OrderStatus` that
exists under the given collect id, is answered with the 500 response and
leaves the store untouched — the handler dies on the undeclared
`payment_time` identifier (paymentWebhook.js line 86) before any save, so
the claimed transition to `success` never happens. -/
theorem webhook_valid_success_returns_serverError :
    paymentWebhook (fun s => s == "goodsig")
      { orders := [{ id := "o1", school_id := "s", trustee_id := "t",
                     student_name := "Asha", student_id := "i",
                     student_email := "a@e", gateway_name := "Edviron",
                     amount := 1000, currency := "INR", status := "pending",
                     created_at := 0 }],
        orderStatuses := [{ _id := 1, collect_id := "abc123",
                            order_id := "o1", order_amount := 1000,
                            transaction_amount := none, payment_mode := none,
                            payment_details := none, bank_reference := none,
                            payment_message := none, status := "pending",
                            error_message := "", payment_time := none,
                            updated_at := 0 }] }
      { order_info := some
          { order_id := some "abc123", order_amount := some 1000,
            transaction_amount := some 1200, gateway := some "PhonePe",
            bank_reference := some "YESBNK222", status := some "success",
            payment_mode := some "upi", payment_details := some "success@ybl",
            payment_message := some "payment success",
            error_message := some "NA" },
        sign := some "goodsig" } =
      (.serverError,
       { orders := [{ id := "o1", school_id := "s", trustee_id := "t",
                      student_name := "Asha", student_id := "i",
                      student_email := "a@e", gateway_name := "Edviron",
                      amount := 1000, currency := "INR", status := "pending",
                      created_at := 0 }],
         orderStatuses := [{ _id := 1, collect_id := "abc123",
                             order_id := "o1", order_amount := 1000,
                             transaction_amount := none, payment_mode := none,
                             payment_details := none, bank_reference := none,
                             payment_message := none, status := "pending",
                             error_message := "", payment_time := none,
                             updated_at := 0 }] }) := by
  decide

/-- C4: delivering the identical webhook payload twice yields exactly the
state and response of delivering it once — the second delivery is a no-op
(indeed every delivery leaves the store unchanged, because the handler never
reaches a `save()`; see `paymentWebhook_store_eq`). -/
theorem webhook_idempotent (verify : String → Bool) (st : Store)
    (p : WebhookReq) :
    paymentWebhook verify (paymentWebhook verify st p).2 p =
      paymentWebhook verify st p := by
  rw [paymentWebhook_store_eq]

/-- C7: the normalizer is a total function into the four canonical states,
invariant under lower-casing (hence case-insensitive), maps each recognized
synonym to its canonical state, and maps the empty token and every token
outside the recognized vocabulary to `pending`. -/
theorem normalizeStatus_spec :
    (∀ s, normalizeStatus s = "pending" ∨ normalizeStatus s = "success" ∨
      normalizeStatus s = "failed" ∨ normalizeStatus s = "cancelled") ∧
    (∀ s, normalizeStatus (jsToLower s) = normalizeStatus s) ∧
    (∀ s, normalizeStatus s = "pending" ∨ jsToLower s ∈ recognizedTokens) ∧
    (normalizeStatus "" = "pending" ∧
     normalizeStatus "successful" = "success" ∧
     normalizeStatus "completed" = "success" ∧
     normalizeStatus "paid" = "success" ∧
     normalizeStatus "captured" = "success" ∧
     normalizeStatus "authorized" = "success" ∧
     normalizeStatus "SUCCESS" = "success" ∧
     normalizeStatus "failure" = "failed" ∧
     normalizeStatus "declined" = "failed" ∧
     normalizeStatus "rejected" = "failed" ∧
     normalizeStatus "error" = "failed" ∧
     normalizeStatus "Failed" = "failed" ∧
     normalizeStatus "canceled" = "cancelled" ∧
     normalizeStatus "abandoned" = "cancelled" ∧
     normalizeStatus "aborted" = "cancelled" ∧
     normalizeStatus "gibberish" = "pending") := by
  refine ⟨?_, ?_, ?_, by decide⟩
  · intro s
    unfold normalizeStatus
    dsimp only
    split
    · left; rfl
    · split
      · right; left; rfl
      · split
        · right; right; left; rfl
        · split
          · right; right; right; rfl
          · left; rfl
  · intro s
    by_cases h : s = ""
    · subst h; rfl
    · unfold normalizeStatus
      rw [if_neg h, if_neg (by rw [jsToLower_eq_empty]; exact h)]
      rw [jsToLower_idem]
  · intro s
    unfold normalizeStatus
    dsimp only
    split
    · left; rfl
    · split
      · right; simp only [recognizedTokens, List.mem_cons]; tauto
      · split
        · right; simp only [recognizedTokens, List.mem_cons]; tauto
        · split
          · right; simp only [recognizedTokens, List.mem_cons]; tauto
          · left; rfl

/-- C1 (failing input): an `OrderStatus` already settled as `success` (as
the webhook ingestor would leave it), hit by a callback whose inline status
is `failed`, ends up stored as `failed` — the direct-status-update block of
`paymentCallback` (app.js line 156) assigns the normalized inline status
unconditionally, with no monotonic-trust guard, so the lower-trust callback
channel replaces the higher-trust terminal value. -/
theorem callback_overwrites_webhook_success :
    ((paymentCallback
        { schoolId := some "sch", saveOk := true, poll := .err, now := 7 }
        { orders := [{ id := "o1", school_id := "s", trustee_id := "t",
                       student_name := "Asha", student_id := "i",
                       student_email := "a@e", gateway_name := "Edviron",
                       amount := 1000, currency := "INR", status := "success",
                       created_at := 0 }],
          orderStatuses := [{ _id := 1, collect_id := "c1", order_id := "o1",
                              order_amount := 1000,
                              transaction_amount := none,
                              payment_mode := none, payment_details := none,
                              bank_reference := none, payment_message := none,
                              status := "success", error_message := "",
                              payment_time := none, updated_at := 0 }] }
        { orderId := some "o1", edvironCollectRequestId := some "c1",
          status := some "failed" }).store.orderStatuses.map
        (fun r => r.status)) = ["failed"] ∧
    normalizeStatus "failed" = "failed" := by
  decide

/-- When the school id is configured, the poll step always reaches the
gateway status query, whatever the poll outcome or the store. -/
theorem pollStep_polled (env : CbEnv) (st : Store) (qs : Option String)
    (co cc : String) (hs : jsTruthy env.schoolId = true) :
    (callbackPollStep env st qs co cc).polled = true := by
  unfold callbackPollStep
  rw [if_neg (by rw [hs]; simp)]
  cases env.poll with
  | err => rfl
  | ok ds amt =>
    dsimp only
    split
    · rfl
    · split
      · rfl
      · split <;> rfl

/-- C5 (counterexample): a callback whose inline status `"processing"`
normalizes to the non-terminal `pending`, against a store holding the
matching pending record, is answered by the direct-update block's redirect
(app.js line 185) without ever querying the gateway status endpoint — the
claim that a non-terminal inline status always triggers the poller is false. -/
theorem callback_inline_pending_skips_poll :
    normalizeStatus "processing" = "pending" ∧
    (paymentCallback
        { schoolId := some "sch", saveOk := true, poll := .err, now := 7 }
        { orders := [{ id := "o1", school_id := "s", trustee_id := "t",
                       student_name := "Asha", student_id := "i",
                       student_email := "a@e", gateway_name := "Edviron",
                       amount := 1000, currency := "INR", status := "pending",
                       created_at := 0 }],
          orderStatuses := [{ _id := 1, collect_id := "c1", order_id := "o1",
                              order_amount := 1000,
                              transaction_amount := none,
                              payment_mode := none, payment_details := none,
                              bank_reference := none, payment_message := none,
                              status := "pending", error_message := "",
                              payment_time := none, updated_at := 0 }] }
        { orderId := some "o1", edvironCollectRequestId := some "c1",
          status := some "processing" }).polled = false := by
  decide

/-- C5 (amended): for a callback carrying a usable collect id, the gateway
status endpoint is queried exactly when the school id is configured and the
direct-status-update step did not complete a find-and-update — i.e. the
poller is *not* keyed on whether the inline status reached a terminal state:
a completed inline update suppresses the poll even when its normalized
status is `pending`, and a failed or skipped inline update triggers the poll
even when the inline status was terminal. -/
theorem callback_polls_iff_inline_step_incomplete (env : CbEnv) (st : Store)
    (q : CbQuery)
    (h : cleanId (jsOr q.edvironCollectRequestId q.orderId) ≠ "") :
    ((paymentCallback env st q).polled = true ↔
      jsTruthy env.schoolId = true ∧
      callbackInlineStep env st q.status (cleanId q.orderId)
        (cleanId (jsOr q.edvironCollectRequestId q.orderId)) = none) := by
  unfold paymentCallback
  dsimp only
  rw [if_neg h]
  cases hi : callbackInlineStep env st q.status (cleanId q.orderId)
      (cleanId (jsOr q.edvironCollectRequestId q.orderId)) with
  | some p => simp
  | none =>
    simp only
    constructor
    · intro hp
      refine ⟨?_, trivial⟩
      by_contra hs
      simp only [Bool.not_eq_true] at hs
      unfold callbackPollStep at hp
      rw [if_pos (by rw [hs])] at hp
      exact Bool.false_ne_true hp
    · intro ⟨hs, _⟩
      exact pollStep_polled env st q.status _ _ hs

/-- Witness for the amended C5 at a concrete callback whose inline step
finds no record: the poller is invoked. -/
theorem callback_polls_iff_inline_step_incomplete_witness :
    (paymentCallback
        { schoolId := some "sch", saveOk := true,
          poll := .ok (some "SUCCESS") (some 1200), now := 7 }
        { orders := [], orderStatuses := [] }
        { orderId := some "o1", edvironCollectRequestId := some "c1",
          status := some "failed" }).polled = true :=
  (callback_polls_iff_inline_step_incomplete
      { schoolId := some "sch", saveOk := true,
        poll := .ok (some "SUCCESS") (some 1200), now := 7 }
      { orders := [], orderStatuses := [] }
      { orderId := some "o1", edvironCollectRequestId := some "c1",
        status := some "failed" }
      (by decide)).mpr (by decide)

/-- If the direct-status-update step returned, it returned the line-185
redirect carrying the raw inline status, and only after a successful save of
a record found under a truthy inline status. -/
theorem callbackInlineStep_eq_some (env : CbEnv) (st : Store)
    (qs : Option String) (co cc : String) (p : CbResult × Store)
    (h : callbackInlineStep env st qs co cc = some p) :
    p.1 = CbResult.redirect co (qs.getD "") cc ∧ env.saveOk = true ∧
      jsTruthy qs = true := by
  unfold callbackInlineStep at h
  split at h
  · rename_i hcond
    split at h
    · split at h
      · cases h; exact ⟨rfl, by assumption, hcond.1⟩
      · exact absurd h (by simp)
    · exact absurd h (by simp)
  · exact absurd h (by simp)

/-- Every exit of the poll step is a redirect. -/
theorem pollStep_resp (env : CbEnv) (st : Store) (qs : Option String)
    (co cc : String) :
    ∃ o s c, (callbackPollStep env st qs co cc).resp =
      CbResult.redirect o s c := by
  unfold callbackPollStep pendingRedirect
  split
  · exact ⟨_, _, _, rfl⟩
  · cases env.poll with
    | err => exact ⟨_, _, _, rfl⟩
    | ok ds amt =>
      dsimp only
      split
      · exact ⟨_, _, _, rfl⟩
      · split
        · exact ⟨_, _, _, rfl⟩
        · split
          · exact ⟨_, _, _, rfl⟩
          · exact ⟨_, _, _, rfl⟩

/-- A failed poll always ends in the final `PENDING` redirect of app.js
line 324, whatever else happened. -/
theorem pollStep_err_pending (env : CbEnv) (st : Store) (qs : Option String)
    (co cc : String) (hp : env.poll = .err) :
    (callbackPollStep env st qs co cc).resp =
      CbResult.redirect (strOr co cc) "PENDING" cc := by
  unfold callbackPollStep
  split
  · rfl
  · rw [hp]; rfl

/-- C6: every callback request whose surviving collect id is non-empty is
answered with a browser redirect (target plus status and identifiers), on
every store, configuration and oracle outcome; and under full internal
failure (poll error and failing saves) the redirect degrades to the literal
`PENDING` status rather than disappearing. -/
theorem callback_always_redirects (env : CbEnv) (st : Store) (q : CbQuery)
    (h : cleanId (jsOr q.edvironCollectRequestId q.orderId) ≠ "") :
    (∃ o s c, (paymentCallback env st q).resp = CbResult.redirect o s c) ∧
    (env.poll = .err → env.saveOk = false →
      ∃ o c, (paymentCallback env st q).resp =
        CbResult.redirect o "PENDING" c) := by
  unfold paymentCallback
  dsimp only
  rw [if_neg h]
  cases hi : callbackInlineStep env st q.status (cleanId q.orderId)
      (cleanId (jsOr q.edvironCollectRequestId q.orderId)) with
  | some p =>
    obtain ⟨hr, hsave, _⟩ := callbackInlineStep_eq_some _ _ _ _ _ _ hi
    constructor
    · exact ⟨_, _, _, hr⟩
    · intro _ hnosave
      rw [hsave] at hnosave
      exact absurd hnosave (by simp)
  | none =>
    constructor
    · exact pollStep_resp env st q.status _ _
    · intro hp _
      exact ⟨_, _, pollStep_err_pending env st q.status _ _ hp⟩

/-- Witness for C6: a callback with only a collect id, no school id
configured, failing saves and a failing poll still gets the `PENDING`
redirect. -/
theorem callback_always_redirects_witness :
    ∃ o c, (paymentCallback
        { schoolId := none, saveOk := false, poll := .err, now := 0 }
        { orders := [], orderStatuses := [] }
        { orderId := none, edvironCollectRequestId := some "cx",
          status := some "failed" }).resp =
      CbResult.redirect o "PENDING" c :=
  (callback_always_redirects
      { schoolId := none, saveOk := false, poll := .err, now := 0 }
      { orders := [], orderStatuses := [] }
      { orderId := none, edvironCollectRequestId := some "cx",
        status := some "failed" }
      (by decide)).2 rfl rfl

/-- C9 (counterexample): with a matching record in the store, an inline
status `"paid"` — whose normalized canonical form is `success` — is echoed
verbatim as the redirect's status parameter (app.js line 185 interpolates
`callbackStatus`, not `normalizedStatus`), so the redirect does not carry a
canonical status. -/
theorem callback_redirect_carries_raw_status :
    (paymentCallback
        { schoolId := some "sch", saveOk := true, poll := .err, now := 7 }
        { orders := [{ id := "o1", school_id := "s", trustee_id := "t",
                       student_name := "Asha", student_id := "i",
                       student_email := "a@e", gateway_name := "Edviron",
                       amount := 1000, currency := "INR", status := "pending",
                       created_at := 0 }],
          orderStatuses := [{ _id := 1, collect_id := "c1", order_id := "o1",
                              order_amount := 1000,
                              transaction_amount := none,
                              payment_mode := none, payment_details := none,
                              bank_reference := none, payment_message := none,
                              status := "pending", error_message := "",
                              payment_time := none, updated_at := 0 }] }
        { orderId := some "o1", edvironCollectRequestId := some "c1",
          status := some "paid" }).resp =
      CbResult.redirect "o1" "paid" "c1" ∧
    normalizeStatus "paid" = "success" ∧
    "paid" ∉ (["pending", "success", "failed", "cancelled"] : List String) := by
  decide

/-- If the poll step redirected, its status parameter is either the raw
gateway status or the literal `PENDING`. -/
theorem pollStep_status_prov (env : CbEnv) (st : Store) (qs : Option String)
    (co cc o s c : String)
    (h : (callbackPollStep env st qs co cc).resp = CbResult.redirect o s c) :
    (∃ a, env.poll = PollOutcome.ok (some s) a) ∨ s = "PENDING" := by
  unfold callbackPollStep at h
  split at h
  · right
    simp only [pendingRedirect, CbResult.redirect.injEq] at h
    exact h.2.1.symm
  · cases hp : env.poll with
    | err =>
      rw [hp] at h
      right
      simp only [pendingRedirect, CbResult.redirect.injEq] at h
      exact h.2.1.symm
    | ok ds amt =>
      rw [hp] at h
      dsimp only at h
      split at h
      · right
        simp only [pendingRedirect, CbResult.redirect.injEq] at h
        exact h.2.1.symm
      · rename_i hds
        have hds' : jsTruthy ds = true := by simpa using hds
        cases ds with
        | none => simp [jsTruthy] at hds'
        | some t =>
          dsimp only [Option.getD] at h
          split at h
          · simp only [CbResult.redirect.injEq] at h
            exact Or.inl ⟨amt, by rw [← h.2.1]⟩
          · split at h
            · simp only [CbResult.redirect.injEq] at h
              exact Or.inl ⟨amt, by rw [← h.2.1]⟩
            · right
              simp only [pendingRedirect, CbResult.redirect.injEq] at h
              exact h.2.1.symm

/-- C9 (amended): every status parameter a callback redirect carries is the
status string exactly as received — the raw inline callback status, the raw
status string returned by the gateway poll, or the literal `PENDING` of the
unresolved-case redirect; normalization is applied to the stored record but
never to the redirect's status parameter. -/
theorem callback_redirect_status_provenance (env : CbEnv) (st : Store)
    (q : CbQuery) (o s c : String)
    (h : (paymentCallback env st q).resp = CbResult.redirect o s c) :
    q.status = some s ∨ (∃ a, env.poll = PollOutcome.ok (some s) a) ∨
      s = "PENDING" := by
  unfold paymentCallback at h
  dsimp only at h
  by_cases hcc : cleanId (jsOr q.edvironCollectRequestId q.orderId) = ""
  · rw [if_pos hcc] at h; cases h
  · rw [if_neg hcc] at h
    cases hi : callbackInlineStep env st q.status (cleanId q.orderId)
        (cleanId (jsOr q.edvironCollectRequestId q.orderId)) with
    | some p =>
      rw [hi] at h
      dsimp only at h
      obtain ⟨hr, _, hts⟩ := callbackInlineStep_eq_some _ _ _ _ _ _ hi
      rw [hr] at h
      cases hq : q.status with
      | none => rw [hq] at hts; simp [jsTruthy] at hts
      | some t =>
        rw [hq] at h
        simp only [Option.getD, CbResult.redirect.injEq] at h
        left
        rw [h.2.1]
    | none =>
      rw [hi] at h
      exact Or.inr (pollStep_status_prov _ _ _ _ _ _ _ _ h)

/-- Witness for the amended C9: the concrete `"paid"` redirect's status is
traced back to the inline callback status. -/
theorem callback_redirect_status_provenance_witness :
    ({ orderId := some "o1", edvironCollectRequestId := some "c1",
       status := some "paid" } : CbQuery).status = some "paid" ∨
    (∃ a, ({ schoolId := some "sch", saveOk := true, poll := .err,
             now := 7 } : CbEnv).poll = PollOutcome.ok (some "paid") a) ∨
    "paid" = "PENDING" :=
  callback_redirect_status_provenance
    { schoolId := some "sch", saveOk := true, poll := .err, now := 7 }
    { orders := [],
      orderStatuses := [{ _id := 1, collect_id := "c1", order_id := "o1",
                          order_amount := 1000, transaction_amount := none,
                          payment_mode := none, payment_details := none,
                          bank_reference := none, payment_message := none,
                          status := "pending", error_message := "",
                          payment_time := none, updated_at := 0 }] }
    { orderId := some "o1", edvironCollectRequestId := some "c1",
      status := some "paid" }
    "o1" "paid" "c1" (by decide)

/-- C8: `POST create-payment {amount:1000, student_info:{name:"Asha"}}`
against a gateway answering `{collect_request_id:"abc123",
collect_request_url:"https://pay/abc123"}` persists a pending `Order`,
persists an `OrderStatus` keyed `"abc123"` with order amount 1000 and
status pending, and responds with redirect URL `"https://pay/abc123"`. -/
theorem createPayment_end_to_end :
    (createPayment
        { envValid := true, schoolId := "sch", user := none, uuid := "u1",
          referenceId := "ref-1", newOrderId := "ord1", newOsId := 9,
          now := 3,
          gateway := .ok { collect_request_id := some "abc123", id := none,
                           collect_request_url := some "https://pay/abc123",
                           capitalCollectRequestUrl := none,
                           payment_url := none, redirect_url := none } }
        { orders := [], orderStatuses := [] }
        { amount := some 1000,
          student_info := some { name := some "Asha", id := none,
                                 email := none },
          phone_number := none }).1 =
      CpResp.ok "https://pay/abc123" "abc123" "ord1" ∧
    ((createPayment
        { envValid := true, schoolId := "sch", user := none, uuid := "u1",
          referenceId := "ref-1", newOrderId := "ord1", newOsId := 9,
          now := 3,
          gateway := .ok { collect_request_id := some "abc123", id := none,
                           collect_request_url := some "https://pay/abc123",
                           capitalCollectRequestUrl := none,
                           payment_url := none, redirect_url := none } }
        { orders := [], orderStatuses := [] }
        { amount := some 1000,
          student_info := some { name := some "Asha", id := none,
                                 email := none },
          phone_number := none }).2.orders.map
        (fun o => (o.id, o.status))) = [("ord1", "pending")] ∧
    ((createPayment
        { envValid := true, schoolId := "sch", user := none, uuid := "u1",
          referenceId := "ref-1", newOrderId := "ord1", newOsId := 9,
          now := 3,
          gateway := .ok { collect_request_id := some "abc123", id := none,
                           collect_request_url := some "https://pay/abc123",
                           capitalCollectRequestUrl := none,
                           payment_url := none, redirect_url := none } }
        { orders := [], orderStatuses := [] }
        { amount := some 1000,
          student_info := some { name := some "Asha", id := none,
                                 email := none },
          phone_number := none }).2.orderStatuses.map
        (fun r => (r.collect_id, r.order_amount, r.status))) =
      [("abc123", (1000 : Int), "pending")] := by
  decide

/-- C10: once `createPayment`'s input validation passes, the `Order` is
persisted with status pending before the gateway call, so every
gateway-call failure (timeout/transport error, error-status response, or a
response with no payment URL) returns a 4xx/5xx error while the store keeps
the new pending `Order` and gains no `OrderStatus` record. -/
theorem createPayment_gateway_failure_leaves_pending_order (env : CpEnv)
    (st : Store) (req : CreatePaymentReq) (a : Int) (si : StudentInfo)
    (hval : env.envValid = true) (ha : req.amount = some a) (hpos : 0 < a)
    (hsi : req.student_info = some si) (hname : jsTruthy si.name = true)
    (hgw : gatewayFailed env.gateway = true) :
    (∃ code msg, (createPayment env st req).1 = CpResp.err code msg ∧
      400 ≤ code) ∧
    (createPayment env st req).2.orders = st.orders ++ [mkOrder env si a] ∧
    (mkOrder env si a).status = "pending" ∧
    (createPayment env st req).2.orderStatuses = st.orderStatuses := by
  unfold createPayment
  rw [hval, ha, hsi]
  simp only [Bool.true_eq_false, if_false]
  rw [if_neg (show ¬ a ≤ 0 by omega), hname]
  simp only [Bool.true_eq_false, if_false]
  cases hg : env.gateway with
  | netErr => exact ⟨⟨504, _, rfl, by omega⟩, rfl, rfl, rfl⟩
  | errStatus c =>
    dsimp only
    split
    · exact ⟨⟨401, _, rfl, by omega⟩, rfl, rfl, rfl⟩
    · split
      · exact ⟨⟨400, _, rfl, by omega⟩, rfl, rfl, rfl⟩
      · split
        · exact ⟨⟨404, _, rfl, by omega⟩, rfl, rfl, rfl⟩
        · exact ⟨⟨500, _, rfl, by omega⟩, rfl, rfl, rfl⟩
  | ok d =>
    rw [hg] at hgw
    unfold gatewayFailed at hgw
    rw [Option.isNone_iff_eq_none] at hgw
    dsimp only
    rw [hgw]
    exact ⟨⟨500, _, rfl, by omega⟩, rfl, rfl, rfl⟩

/-- Witness for C10: a concrete timed-out gateway call leaves exactly the
new pending order persisted and no order-status record. -/
theorem createPayment_gateway_failure_witness :
    (∃ code msg,
      (createPayment
          { envValid := true, schoolId := "sch", user := none, uuid := "u1",
            referenceId := "ref-1", newOrderId := "ord1", newOsId := 9,
            now := 3, gateway := .netErr }
          { orders := [], orderStatuses := [] }
          { amount := some 1000,
            student_info := some { name := some "Asha", id := none,
                                   email := none },
            phone_number := none }).1 = CpResp.err code msg ∧ 400 ≤ code) ∧
    (createPayment
        { envValid := true, schoolId := "sch", user := none, uuid := "u1",
          referenceId := "ref-1", newOrderId := "ord1", newOsId := 9,
          now := 3, gateway := .netErr }
        { orders := [], orderStatuses := [] }
        { amount := some 1000,
          student_info := some { name := some "Asha", id := none,
                                 email := none },
          phone_number := none }).2.orders =
      [] ++ [mkOrder
        { envValid := true, schoolId := "sch", user := none, uuid := "u1",
          referenceId := "ref-1", newOrderId := "ord1", newOsId := 9,
          now := 3, gateway := .netErr }
        { name := some "Asha", id := none, email := none } 1000] ∧
    (mkOrder
        { envValid := true, schoolId := "sch", user := none, uuid := "u1",
          referenceId := "ref-1", newOrderId := "ord1", newOsId := 9,
          now := 3, gateway := .netErr }
        { name := some "Asha", id := none, email := none } 1000).status =
      "pending" ∧
    (createPayment
        { envValid := true, schoolId := "sch", user := none, uuid := "u1",
          referenceId := "ref-1", newOrderId := "ord1", newOsId := 9,
          now := 3, gateway := .netErr }
        { orders := [], orderStatuses := [] }
        { amount := some 1000,
          student_info := some { name := some "Asha", id := none,
                                 email := none },
          phone_number := none }).2.orderStatuses = [] :=
  createPayment_gateway_failure_leaves_pending_order
    { envValid := true, schoolId := "sch", user := none, uuid := "u1",
      referenceId := "ref-1", newOrderId := "ord1", newOsId := 9,
      now := 3, gateway := .netErr }
    { orders := [], orderStatuses := [] }
    { amount := some 1000,
      student_info := some { name := some "Asha", id := none, email := none },
      phone_number := none }
    1000 { name := some "Asha", id := none, email := none }
    rfl rfl (by omega) rfl (by decide) rfl

end SchoolPay
